import Mathlib

/-
Verification of the NYC weather / collision ETL core
(transform.py, load.py, run_pipeline.py).

Shallow embedding conventions:
* timestamps are modelled as integers counting minutes since 1970-01-01 00:00
  (local, timezone-naive, minute resolution — all data handled by the pipeline
  is at minute resolution or coarser);
* calendar fields are recovered with the standard proleptic-Gregorian
  civil-from-days / days-from-civil algorithms;
* numeric measurement values are modelled as rationals;
* text is modelled as Lean String values, with the Python string primitives
  (upper, strip, split, contains) re-implemented over the underlying character
  lists so that they are kernel-computable;
* the relational store is modelled as explicit in-memory tables with
  append-only inserts and an integer autoincrement counter;
* pandas NaN / missing values are modelled with Option.
-/

namespace EtlModel

/-! ### Python / pandas string primitives, re-implemented over character lists -/

/-- Splits a character list on a separator character.  Models Python
str.split(sep): adjacent separators and boundary separators produce empty
groups, and splitting the empty string yields one empty group. -/
def splitOnChar (sep : Char) : List Char → List (List Char)
  | [] => [[]]
  | c :: cs =>
    let r := splitOnChar sep cs
    if c = sep then [] :: r
    else
      match r with
      | [] => [[c]]
      | g :: gs => (c :: g) :: gs

/-- Uppercases one ASCII character (Python str.upper on the ASCII range). -/
def upChar (c : Char) : Char :=
  if 'a' ≤ c ∧ c ≤ 'z' then Char.ofNat (c.toNat - 32) else c

/-- Whitespace test used by Python str.strip. -/
def isSpaceChar (c : Char) : Bool :=
  c = ' ' || c = '\t' || c = '\n' || c = '\r'

/-- Python str.upper, over the model's ASCII data. -/
def pyUpper (s : String) : String :=
  String.mk (s.data.map upChar)

/-- Python str.strip: removes leading and trailing whitespace. -/
def pyStrip (s : String) : String :=
  String.mk (((s.data.dropWhile isSpaceChar).reverse.dropWhile isSpaceChar).reverse)

/-- Python sep-in-string test (the expression sep in s). -/
def pyContains (sep : Char) (s : String) : Bool :=
  s.data.contains sep

/-- Python str.split with a one-character separator, as Strings. -/
def pySplit (sep : Char) (s : String) : List String :=
  (splitOnChar sep s.data).map String.mk

/-- Reads a non-empty all-digit character list as a natural number. -/
def digitsToNat? (l : List Char) : Option ℕ :=
  if l ≠ [] ∧ l.all Char.isDigit then
    some (l.foldl (fun a c => a * 10 + (c.toNat - 48)) 0)
  else none

/-! ### Civil calendar arithmetic

Days are counted from 1970-01-01.  The two conversions below are the standard
proleptic-Gregorian algorithms (era/year-of-era/day-of-year decomposition);
they model the calendar arithmetic that Python datetime / pandas Timestamp
perform for the .date(), .day, .month, .year accessors. -/

/-- Converts a day count (days since 1970-01-01) to (year, month, day). -/
def civilFromDays (z : ℤ) : ℤ × ℤ × ℤ :=
  let z' := z + 719468
  let era := Int.ediv z' 146097
  let doe := z' - era * 146097
  let yoe := Int.ediv (doe - Int.ediv doe 1460 + Int.ediv doe 36524 - Int.ediv doe 146096) 365
  let y := yoe + era * 400
  let doy := doe - (365 * yoe + Int.ediv yoe 4 - Int.ediv yoe 100)
  let mp := Int.ediv (5 * doy + 2) 153
  let d := doy - Int.ediv (153 * mp + 2) 5 + 1
  let m := mp + (if mp < 10 then 3 else (-9))
  (y + (if m ≤ 2 then 1 else 0), m, d)

/-- Converts a (year, month, day) civil date to days since 1970-01-01. -/
def daysFromCivil (y m d : ℤ) : ℤ :=
  let y' := y - (if m ≤ 2 then 1 else 0)
  let era := Int.ediv y' 400
  let yoe := y' - era * 400
  let doy := Int.ediv (153 * (m + (if 2 < m then (-3) else 9)) + 2) 5 + d - 1
  let doe := yoe * 365 + Int.ediv yoe 4 - Int.ediv yoe 100 + doy
  era * 146097 + doe - 719468

/-- Day count of a timestamp (minutes since epoch), the .date() accessor. -/
def dtDay (t : ℤ) : ℤ := Int.ediv t 1440

/-- Hour-of-day of a timestamp, the .hour accessor. -/
def dtHour (t : ℤ) : ℤ := Int.ediv (Int.emod t 1440) 60

/-- Minute-of-hour of a timestamp, the .minute accessor. -/
def dtMinute (t : ℤ) : ℤ := Int.emod t 60

/-- Year of a timestamp, the .year accessor. -/
def dtYear (t : ℤ) : ℤ := (civilFromDays (dtDay t)).1

/-- Month of a timestamp, the .month accessor. -/
def dtMonth (t : ℤ) : ℤ := (civilFromDays (dtDay t)).2.1

/-- Day-of-month of a timestamp, the .day accessor. -/
def dtDayOfMonth (t : ℤ) : ℤ := (civilFromDays (dtDay t)).2.2

/-- Python datetime.weekday(): Monday = 0 .. Sunday = 6.
1970-01-01 was a Thursday (= 3). -/
def pyWeekday (t : ℤ) : ℤ := Int.emod (dtDay t + 3) 7

/-- Python strftime %A full weekday name, from the weekday index. -/
def dayName (w : ℤ) : String :=
  if w = 0 then "Monday"
  else if w = 1 then "Tuesday"
  else if w = 2 then "Wednesday"
  else if w = 3 then "Thursday"
  else if w = 4 then "Friday"
  else if w = 5 then "Saturday"
  else "Sunday"

/-! ### Timestamp string parsing

Models pandas.to_datetime(..., errors='coerce') on the string shapes the
pipeline feeds it: "YYYY-MM-DD", "YYYY-MM-DD H:MM", "YYYY-MM-DD HH:MM",
"YYYY-MM-DD HH:MM:SS".  Any other shape coerces to NaT (none). -/

/-- Parses a "YYYY-MM-DD" character list to a day count. -/
def parseDateChars (l : List Char) : Option ℤ :=
  match splitOnChar '-' l with
  | [ys, ms, ds] =>
    match digitsToNat? ys, digitsToNat? ms, digitsToNat? ds with
    | some y, some m, some d =>
      if 1 ≤ m ∧ m ≤ 12 ∧ 1 ≤ d ∧ d ≤ 31 then some (daysFromCivil y m d) else none
    | _, _, _ => none
  | _ => none

/-- Parses a "H:MM", "HH:MM" or "HH:MM:SS" character list to minutes within
the day (seconds are validated but truncated: the model is minute-resolution). -/
def parseTimeChars (l : List Char) : Option ℤ :=
  match splitOnChar ':' l with
  | [hs, ms] =>
    match digitsToNat? hs, digitsToNat? ms with
    | some h, some m => if h ≤ 23 ∧ m ≤ 59 then some ((h : ℤ) * 60 + m) else none
    | _, _ => none
  | [hs, ms, ss] =>
    match digitsToNat? hs, digitsToNat? ms, digitsToNat? ss with
    | some h, some m, some s =>
      if h ≤ 23 ∧ m ≤ 59 ∧ s ≤ 59 then some ((h : ℤ) * 60 + m) else none
    | _, _, _ => none
  | _ => none

/-- Parses a date or date-plus-time string to a timestamp (minutes since
epoch); the model of pandas.to_datetime with errors='coerce'. -/
def parseDateTimeStr (s : String) : Option ℤ :=
  match splitOnChar ' ' s.data with
  | [d] => (parseDateChars d).map (fun day => day * 1440)
  | [d, tm] =>
    match parseDateChars d, parseTimeChars tm with
    | some day, some mins => some (day * 1440 + mins)
    | _, _ => none
  | _ => none

/-! ### WeatherTransformer (src/transform.py)

The borough/timestamp time features of transform lines 71-78, the category
classifier of lines 110-130, and the season mapping of lines 100-108 (the
same month-to-season mapping is re-implemented inline by the loader at
load.py lines 64-72). -/

/-- Month-to-season mapping: WeatherTransformer._get_season, also inlined in
ExactSchemaDatabaseLoader.ensure_datetime_dim. -/
def seasonOfMonth (m : ℤ) : String :=
  if m = 12 ∨ m = 1 ∨ m = 2 then "WINTER"
  else if m = 3 ∨ m = 4 ∨ m = 5 then "SPRING"
  else if m = 6 ∨ m = 7 ∨ m = 8 then "SUMMER"
  else "FALL"

/-- Time-based features the weather cleaner derives from the NYC-local
timestamp (transform.py lines 71-78). -/
structure WFeatures where
  hour_nyc : ℤ
  day_of_week : String
  is_weekend : Bool
  is_rush_hour : Bool
  is_night : Bool
  month : ℤ
  season : String
deriving DecidableEq

/-- Derivation of the weather cleaner's time features for one local
timestamp. -/
def mkWeatherFeatures (t : ℤ) : WFeatures :=
  let h := dtHour t
  { hour_nyc := h
    day_of_week := dayName (pyWeekday t)
    is_weekend := decide (5 ≤ pyWeekday t)
    is_rush_hour := ([7, 8, 9, 16, 17, 18, 19] : List ℤ).contains h
    is_night := decide (20 ≤ h ∨ h < 6)
    month := dtMonth t
    season := seasonOfMonth (dtMonth t) }

/-- Measurement fields of one weather row as _categorize_weather reads them
with row.get: a missing field falls back to the documented default (0 for all
fields except visibility, which defaults to 10000). -/
structure WMeasures where
  snowfall : Option ℚ
  rain : Option ℚ
  showers : Option ℚ
  precipitation : Option ℚ
  visibility : Option ℚ
  wind_speed_10m : Option ℚ

/-- WeatherTransformer._categorize_weather (transform.py lines 110-130). -/
def categorizeWeather (r : WMeasures) : String :=
  if r.snowfall.getD 0 > 0 then "SNOW"
  else
    let rain_total := r.rain.getD 0 + r.showers.getD 0 + r.precipitation.getD 0
    if rain_total > 0 then "RAIN"
    else if r.visibility.getD 10000 < 5000 then "FOG"
    else if r.wind_speed_10m.getD 0 > 30 then "WIND"
    else "CLEAR"

/-! ### CollisionsTransformer (src/transform.py) -/

/-- Truncation of a rational toward zero: Python int() / pandas astype(int)
applied to a numeric value. -/
def truncToInt (q : ℚ) : ℤ := Int.tdiv q.num q.den

/-- Numeric-string recognition of pandas.to_numeric(..., errors='coerce') on
the shapes relevant here: an optional minus sign, digits, an optional decimal
part.  Everything else coerces to NaN (none). -/
def parseNumericStr (s : String) : Option ℚ :=
  let l := ((s.data.dropWhile isSpaceChar).reverse.dropWhile isSpaceChar).reverse
  let (neg, body) := match l with
    | '-' :: rest => (true, rest)
    | _ => (false, l)
  match splitOnChar '.' body with
  | [ip] => (digitsToNat? ip).map (fun n => if neg then -(n : ℚ) else (n : ℚ))
  | [ip, fp] =>
    match digitsToNat? ip, digitsToNat? fp with
    | some i, some f =>
      let q : ℚ := mkRat (i * 10 ^ fp.length + f) (10 ^ fp.length)
      some (if neg then -q else q)
    | _, _ => none
  | _ => none

/-- Raw cell value of an injury-count column: a number, a string, or
missing/NaN. -/
inductive Cell where
  | num (q : ℚ)
  | str (s : String)
  | null
deriving DecidableEq

/-- Per-cell count coercion of transform.py line 235:
pd.to_numeric(errors='coerce').fillna(0).astype(int). -/
def coerceCount (c : Cell) : ℤ :=
  match c with
  | .null => 0
  | .num q => truncToInt q
  | .str s =>
    match parseNumericStr s with
    | some q => truncToInt q
    | none => 0

/-- Whole-column coercion of transform.py lines 232-235: a column absent from
the input (none) is created and zero-filled over the n rows of the table; a
present column is coerced cell by cell. -/
def coerceCountColumn (col : Option (List Cell)) (n : ℕ) : List ℤ :=
  match col with
  | none => List.replicate n 0
  | some cells => cells.map coerceCount

/-- CollisionsTransformer._parse_crash_datetime for one row (transform.py
lines 272-289): date part before a literal T, strip the time, left-pad a
single-digit hour, then parse the concatenation; unparseable yields none. -/
def parseCrashDatetime (crash_date crash_time : String) : Option ℤ :=
  let date_str := (splitOnChar 'T' crash_date.data).headD []
  let time_str := ((crash_time.data.dropWhile isSpaceChar).reverse.dropWhile isSpaceChar).reverse
  let time_str :=
    if time_str.contains ':' && ((splitOnChar ':' time_str).headD []).length == 1
    then '0' :: time_str else time_str
  match parseDateChars date_str, parseTimeChars time_str with
  | some day, some mins => some (day * 1440 + mins)
  | _, _ => none

/-- Borough normalization of the collision cleaner (transform.py line 218):
fillna('UNKNOWN'), then str.upper, then str.strip. -/
def normBoroughTransform (b : Option String) : String :=
  pyStrip (pyUpper (b.getD "UNKNOWN"))

/-- The five canonical borough keys of config.BOROUGHS plus UNKNOWN
(transform.py line 219). -/
def validBoroughs : List String :=
  ["MANHATTAN", "BROOKLYN", "QUEENS", "BRONX", "STATEN ISLAND", "UNKNOWN"]

/-- Raw collision row restricted to the columns the cleaning rules read
(after the column renaming of transform.py lines 186-207).  A none field is a
missing/NaN value. -/
structure CRaw where
  collision_id : Option String
  crash_date : Option String
  crash_time : Option String
  borough : Option String
  persons_injured : Cell
  persons_killed : Cell
  pedestrians_injured : Cell
  pedestrians_killed : Cell
  cyclists_injured : Cell
  cyclists_killed : Cell
  motorists_injured : Cell
  motorists_killed : Cell
deriving DecidableEq

/-- Intermediate row after datetime parsing, borough normalization and count
coercion (transform.py lines 212-242). -/
structure CInter where
  collision_id : Option String
  crash_datetime : Option ℤ
  borough : String
  persons_injured : ℤ
  persons_killed : ℤ
  pedestrians_injured : ℤ
  pedestrians_killed : ℤ
  cyclists_injured : ℤ
  cyclists_killed : ℤ
  motorists_injured : ℤ
  motorists_killed : ℤ
deriving DecidableEq

/-- Cleaned collision row with the derived features of transform.py
lines 253-267. -/
structure CClean where
  collision_id : String
  crash_datetime : ℤ
  borough : String
  persons_injured : ℤ
  persons_killed : ℤ
  pedestrians_injured : ℤ
  pedestrians_killed : ℤ
  cyclists_injured : ℤ
  cyclists_killed : ℤ
  motorists_injured : ℤ
  motorists_killed : ℤ
  has_injuries : Bool
  has_fatalities : Bool
  total_involved : ℤ
  severity_level : String
deriving DecidableEq

/-- CollisionsTransformer._determine_severity (transform.py lines 291-301). -/
def determineSeverity (persons_injured persons_killed total_involved : ℤ) : String :=
  if persons_killed > 0 then "FATAL"
  else if persons_injured ≥ 3 then "SEVERE"
  else if persons_injured > 0 then "MODERATE"
  else if total_involved > 0 then "MINOR"
  else "NONE"

/-- Row-level part of the cleaning that precedes the row filters: crash
datetime reconstruction (a missing crash_date or crash_time reads back as the
string form of NaN), borough normalization, count coercion. -/
def cleanStage1 (r : CRaw) : CInter :=
  { collision_id := r.collision_id
    crash_datetime :=
      parseCrashDatetime (r.crash_date.getD "nan") (r.crash_time.getD "nan")
    borough := normBoroughTransform r.borough
    persons_injured := coerceCount r.persons_injured
    persons_killed := coerceCount r.persons_killed
    pedestrians_injured := coerceCount r.pedestrians_injured
    pedestrians_killed := coerceCount r.pedestrians_killed
    cyclists_injured := coerceCount r.cyclists_injured
    cyclists_killed := coerceCount r.cyclists_killed
    motorists_injured := coerceCount r.motorists_injured
    motorists_killed := coerceCount r.motorists_killed }

/-- Deduplication keeping the first occurrence of each key, with an
accumulator of the keys already seen (drop_duplicates with keep='first'). -/
def dedupByKeyAux {α β : Type} [DecidableEq β] (key : α → β) (seen : List β) :
    List α → List α
  | [] => []
  | x :: xs =>
    if seen.contains (key x) then dedupByKeyAux key seen xs
    else x :: dedupByKeyAux key (key x :: seen) xs

/-- Deduplication keeping the first occurrence of each key
(drop_duplicates). -/
def dedupByKey {α β : Type} [DecidableEq β] (key : α → β) (l : List α) : List α :=
  dedupByKeyAux key [] l

/-- Derived-feature step of transform.py lines 253-267 on a surviving row. -/
def deriveClean (i : CInter) : CClean :=
  let total := i.persons_injured + i.persons_killed + i.pedestrians_injured +
    i.pedestrians_killed + i.cyclists_injured + i.cyclists_killed +
    i.motorists_injured + i.motorists_killed
  { collision_id := i.collision_id.getD ""
    crash_datetime := i.crash_datetime.getD 0
    borough := i.borough
    persons_injured := i.persons_injured
    persons_killed := i.persons_killed
    pedestrians_injured := i.pedestrians_injured
    pedestrians_killed := i.pedestrians_killed
    cyclists_injured := i.cyclists_injured
    cyclists_killed := i.cyclists_killed
    motorists_injured := i.motorists_injured
    motorists_killed := i.motorists_killed
    has_injuries := decide (i.persons_injured > 0)
    has_fatalities := decide (i.persons_killed > 0)
    total_involved := total
    severity_level := determineSeverity i.persons_injured i.persons_killed total }

/-- CollisionsTransformer.transform (transform.py lines 168-270): per-row
cleaning, borough validity filter, drop of rows with a missing collision id
or unparseable crash datetime, deduplication by collision id, derived
features. -/
def collisionsTransform (rows : List CRaw) : List CClean :=
  let step1 := rows.map cleanStage1
  let step2 := step1.filter (fun i => validBoroughs.contains i.borough)
  let step3 := step2.filter (fun i => i.collision_id.isSome && i.crash_datetime.isSome)
  let step4 := dedupByKey (fun i => i.collision_id) step3
  step4.map deriveClean

/-! ### Dimension tables and get-or-create resolution (src/load.py)

A dimension table is a list of (surrogate id, row) pairs plus an
autoincrement counter; the physical store enforces a uniqueness constraint on
the lookup column, here represented by the key function.  Concurrent callers
are modelled by a list of key resolutions (each itself a get-or-create)
performed by another process between this caller's initial lookup and its
insert attempt — exactly the window in which the insert can hit MySQL error
1062 (duplicate entry), which ensure_datetime_dim / ensure_location_dim catch
and convert into a re-lookup. -/

/-- Dimension table state: rows with surrogate ids, and the autoincrement
counter supplying the next id. -/
structure DimStore (R : Type) where
  rows : List (ℕ × R)
  nextId : ℕ

/-- Lookup of the first row whose key matches, returning its surrogate id
(the SELECT ... WHERE key = value of the ensure functions). -/
def lookupRows {K R : Type} [DecidableEq K] (key : R → K) (k : K) : List (ℕ × R) → Option ℕ
  | [] => none
  | p :: ps => if key p.2 = k then some p.1 else lookupRows key k ps

/-- Number of rows carrying a given key. -/
def countKeyRows {K R : Type} [DecidableEq K] (key : R → K) (k : K) : List (ℕ × R) → ℕ
  | [] => 0
  | p :: ps => (if key p.2 = k then 1 else 0) + countKeyRows key k ps

/-- Uniqueness-constraint invariant of a dimension table: no row's key occurs
again later in the table. -/
def dimOk {K R : Type} [DecidableEq K] (key : R → K) : List (ℕ × R) → Bool
  | [] => true
  | p :: ps => (lookupRows key (key p.2) ps).isNone && dimOk key ps

/-- Insert of a freshly built row, assigning the autoincrement id
(cursor.lastrowid). -/
def DimStore.insertRow {K R : Type} (mk : K → R) (s : DimStore R) (k : K) : DimStore R :=
  { rows := s.rows ++ [(s.nextId, mk k)], nextId := s.nextId + 1 }

/-- One get-or-create performed by a concurrent resolver: insert the key's
row only if the key is absent. -/
def raceStep {K R : Type} [DecidableEq K] (key : R → K) (mk : K → R)
    (s : DimStore R) (w : K) : DimStore R :=
  if lookupRows key w s.rows = none then s.insertRow mk w else s

/-- Get-or-create of ensure_datetime_dim / ensure_location_dim (load.py
lines 37-134): initial lookup; on a hit return the existing id; on a miss,
after the interleaved resolutions of other callers, attempt the insert — if
the key meanwhile exists the insert raises duplicate-entry (errno 1062),
which the code catches and converts into a re-lookup returning the existing
id; otherwise the insert succeeds and lastrowid is returned.  The raise
branch after a failed re-lookup is unreachable here because a duplicate-entry
error means the row is present. -/
def ensureDim {K R : Type} [DecidableEq K] (key : R → K) (mk : K → R)
    (s : DimStore R) (race : List K) (k : K) : DimStore R × ℕ :=
  match lookupRows key k s.rows with
  | some i => (s, i)
  | none =>
    let s' := race.foldl (raceStep key mk) s
    match lookupRows key k s'.rows with
    | some i => (s', i)
    | none => (s'.insertRow mk k, s'.nextId)

/-- A sequence of further resolutions (each with its own interleavings)
against a dimension store. -/
def resolveOps {K R : Type} [DecidableEq K] (key : R → K) (mk : K → R)
    (s : DimStore R) : List (List K × K) → DimStore R
  | [] => s
  | (race, k) :: ops => resolveOps key mk (ensureDim key mk s race k).1 ops

/-! ### The datetime and location dimension rows -/

/-- Row of dim_datetime with the columns computed by ensure_datetime_dim
(load.py lines 48-90).  Flag columns hold the 1/0 integers the code inserts. -/
structure DTRow where
  datetime_utc : ℤ
  datetime_nyc : ℤ
  date_nyc : ℤ
  hour_nyc : ℤ
  day_of_week : String
  day_of_month : ℤ
  month : ℤ
  year : ℤ
  is_weekend : ℤ
  is_rush_hour : ℤ
  is_night : ℤ
  quarter : ℤ
  season : String
deriving DecidableEq

/-- Column computation of ensure_datetime_dim (load.py lines 48-90) for a
local NYC timestamp. -/
def mkDatetimeRow (t : ℤ) : DTRow :=
  let hour := dtHour t
  let m := dtMonth t
  { datetime_utc := t - 5 * 60
    datetime_nyc := t
    date_nyc := dtDay t
    hour_nyc := hour
    day_of_week := dayName (pyWeekday t)
    day_of_month := dtDayOfMonth t
    month := m
    year := dtYear t
    is_weekend := if 5 ≤ pyWeekday t then 1 else 0
    is_rush_hour := if (7 ≤ hour ∧ hour ≤ 9) ∨ (16 ≤ hour ∧ hour ≤ 19) then 1 else 0
    is_night := if 22 ≤ hour ∨ hour < 6 then 1 else 0
    quarter := Int.ediv (m - 1) 3 + 1
    season := seasonOfMonth m }

/-- Borough normalization inside ensure_location_dim (load.py lines 109-112):
NaN or blank-after-strip becomes UNKNOWN, otherwise strip then upper. -/
def normBoroughLoad (b : Option String) : String :=
  match b with
  | none => "UNKNOWN"
  | some s => if pyStrip s = "" then "UNKNOWN" else pyUpper (pyStrip s)

/-- ensure_datetime_dim (load.py lines 37-104): get-or-create on the
datetime_nyc column. -/
def ensureDatetimeDim (s : DimStore DTRow) (race : List ℤ) (t : ℤ) : DimStore DTRow × ℕ :=
  ensureDim DTRow.datetime_nyc mkDatetimeRow s race t

/-- ensure_location_dim (load.py lines 106-134): borough normalization, then
get-or-create on the borough column. -/
def ensureLocationDim (s : DimStore String) (race : List String) (b : Option String) :
    DimStore String × ℕ :=
  ensureDim id id s race (normBoroughLoad b)

/-! ### Fact tables and the exact-schema loaders (src/load.py) -/

/-- Row of fact_weather as load_weather_data_exact inserts it (load.py
lines 205-218); weather_id is always inserted NULL and is omitted. -/
structure WFact where
  datetime_id : ℕ
  location_id : ℕ
  temperature_2m : ℚ
  precipitation : ℚ
  visibility : Option ℤ
  rain : ℚ
  showers : ℚ
  snowfall : ℚ
  wind_speed_10m : ℚ
  is_adverse_weather : ℤ
deriving DecidableEq

/-- Row of fact_collisions restricted to the columns the claims mention
(load.py lines 364-395); weather_id is always NULL and the factor / vehicle
and provenance text columns are omitted. -/
structure CFact where
  collision_id : String
  datetime_id : ℕ
  location_id : ℕ
  persons_injured : ℤ
  persons_killed : ℤ
  pedestrians_injured : ℤ
  pedestrians_killed : ℤ
  cyclists_injured : ℤ
  cyclists_killed : ℤ
  motorists_injured : ℤ
  motorists_killed : ℤ
  total_involved : ℤ
  has_injuries : ℤ
  has_fatalities : ℤ
  severity_level : String
deriving DecidableEq

/-- Database state owned by the store: both dimension tables and both fact
tables. -/
structure DBState where
  dtDim : DimStore DTRow
  locDim : DimStore String
  factWeather : List WFact
  factCollisions : List CFact

/-- Per-call counters of a load call (total_loaded / total_skipped /
duplicates locals). -/
structure Counters where
  loaded : ℕ
  skipped : ℕ
  duplicates : ℕ
deriving DecidableEq

/-- Existence pre-check on fact_weather's natural key (load.py
lines 182-188). -/
def wHas (fw : List WFact) (d lo : ℕ) : Bool :=
  fw.any (fun f => f.datetime_id == d && f.location_id == lo)

/-- Number of weather facts with a given (datetime_id, location_id) key. -/
def wKeyCount (fw : List WFact) (d lo : ℕ) : ℕ :=
  fw.countP (fun f => f.datetime_id == d && f.location_id == lo)

/-- Uniqueness invariant of fact_weather: no row's key occurs again later. -/
def wFactsOk : List WFact → Bool
  | [] => true
  | f :: fs => !wHas fs f.datetime_id f.location_id && wFactsOk fs

/-- Existence pre-check on fact_collisions' external key (load.py
lines 319-321). -/
def cHas (fc : List CFact) (cid : String) : Bool :=
  fc.any (fun f => f.collision_id == cid)

/-- Number of collision facts with a given external collision id. -/
def cKeyCount (fc : List CFact) (cid : String) : ℕ :=
  fc.countP (fun f => f.collision_id == cid)

/-- Uniqueness invariant of fact_collisions. -/
def cFactsOk : List CFact → Bool
  | [] => true
  | f :: fs => !cHas fs f.collision_id && cFactsOk fs

/-- Cleaned weather row as load_weather_data_exact reads it: the datetime
field already parsed (none when missing or unparseable, which the loader
skips), the borough (none when NaN), and the measures with row.get
defaults. -/
structure WLoadRow where
  datetime : Option ℤ
  borough : Option String
  temperature_2m : Option ℚ
  precipitation : Option ℚ
  visibility : Option ℤ
  rain : Option ℚ
  showers : Option ℚ
  snowfall : Option ℚ
  wind_speed_10m : Option ℚ
deriving DecidableEq

/-- Weather fact construction of load.py lines 192-218, including the
adverse-weather flag: in Python, visibility participates only when truthy
(present and nonzero). -/
def mkWFact (did lid : ℕ) (r : WLoadRow) : WFact :=
  let precipitation := r.precipitation.getD 0
  let visLow : Bool :=
    match r.visibility with
    | some v => !(v == 0) && decide (v < 1000)
    | none => false
  let is_adverse := if precipitation > 5 ∨ visLow = true then (1 : ℤ) else 0
  { datetime_id := did
    location_id := lid
    temperature_2m := r.temperature_2m.getD 0
    precipitation := precipitation
    visibility := r.visibility
    rain := r.rain.getD 0
    showers := r.showers.getD 0
    snowfall := r.snowfall.getD 0
    wind_speed_10m := r.wind_speed_10m.getD 0
    is_adverse_weather := is_adverse }

/-- Counter updates. -/
def loadC (c : Counters) : Counters := { c with loaded := c.loaded + 1 }

/-- Counter update for a skipped row. -/
def skipC (c : Counters) : Counters := { c with skipped := c.skipped + 1 }

/-- Counter update for a duplicate row. -/
def dupC (c : Counters) : Counters := { c with duplicates := c.duplicates + 1 }

/-- One iteration of the load_weather_data_exact row loop (load.py
lines 157-238): skip on missing datetime/borough, resolve both dimensions,
skip as duplicate when the (datetime_id, location_id) fact exists, otherwise
insert. -/
def wStep (st : DBState × Counters) (r : WLoadRow) : DBState × Counters :=
  let (db, c) := st
  match r.datetime, r.borough with
  | some dt, some b =>
    let dres := ensureDatetimeDim db.dtDim [] dt
    let lres := ensureLocationDim db.locDim [] (some b)
    let db' := { db with dtDim := dres.1, locDim := lres.1 }
    if wHas db'.factWeather dres.2 lres.2 then (db', dupC c)
    else
      ({ db' with factWeather := db'.factWeather ++ [mkWFact dres.2 lres.2 r] }, loadC c)
  | _, _ => (db, skipC c)

/-- load_weather_data_exact's row loop over a cleaned table, with fresh
per-call counters. -/
def loadWeather (db : DBState) (rows : List WLoadRow) : DBState × Counters :=
  rows.foldl wStep (db, ⟨0, 0, 0⟩)

/-- Cleaned collision row as load_collision_data_exact reads it.  Count
fields already integers in the processed data; none models a missing
column. -/
structure CLoadRow where
  collision_id : Option String
  borough : Option String
  crash_date : Option String
  crash_time : Option String
  persons_injured : Option ℤ
  persons_killed : Option ℤ
  pedestrians_injured : Option ℤ
  pedestrians_killed : Option ℤ
  cyclists_injured : Option ℤ
  cyclists_killed : Option ℤ
  motorists_injured : Option ℤ
  motorists_killed : Option ℤ
  total_involved : Option ℤ
deriving DecidableEq

/-- Severity recomputation inside load_collision_data_exact (load.py
lines 329-336). -/
def loaderSeverity (persons_injured persons_killed : ℤ) : String :=
  if persons_killed > 0 then "FATAL"
  else if persons_injured ≥ 3 then "SEVERE"
  else if persons_injured > 0 then "MODERATE"
  else "NONE"

/-- Crash-datetime reconstruction of load.py lines 300-309: date part before
a literal T when present, concatenation with the crash time, and a date-only
fallback parse when the combined parse fails. -/
def loaderParseCrash (crash_date crash_time : String) : Option ℤ :=
  let crash_date_str :=
    if pyContains 'T' crash_date then String.mk ((splitOnChar 'T' crash_date.data).headD [])
    else crash_date
  match parseDateTimeStr (crash_date_str ++ " " ++ crash_time) with
  | some t => some t
  | none => parseDateTimeStr crash_date_str

/-- Collision fact construction of load.py lines 325-395. -/
def mkCFact (cid : String) (did lid : ℕ) (r : CLoadRow) : CFact :=
  let persons_injured := r.persons_injured.getD 0
  let persons_killed := r.persons_killed.getD 0
  { collision_id := cid
    datetime_id := did
    location_id := lid
    persons_injured := persons_injured
    persons_killed := persons_killed
    pedestrians_injured := r.pedestrians_injured.getD 0
    pedestrians_killed := r.pedestrians_killed.getD 0
    cyclists_injured := r.cyclists_injured.getD 0
    cyclists_killed := r.cyclists_killed.getD 0
    motorists_injured := r.motorists_injured.getD 0
    motorists_killed := r.motorists_killed.getD 0
    total_involved := r.total_involved.getD 0
    has_injuries := if persons_injured > 0 then 1 else 0
    has_fatalities := if persons_killed > 0 then 1 else 0
    severity_level := loaderSeverity persons_injured persons_killed }

/-- One iteration of the load_collision_data_exact row loop (load.py
lines 277-415).  The index component models the iterrows index used to
generate a fallback collision id (gen) when the id is missing. -/
def cStep (gen : ℕ → String) (st : (DBState × Counters) × ℕ) (r : CLoadRow) :
    (DBState × Counters) × ℕ :=
  let ((db, c), idx) := st
  let cid := match r.collision_id with | some s => s | none => gen idx
  let b := r.borough.getD "UNKNOWN"
  match r.crash_date with
  | none => ((db, skipC c), idx + 1)
  | some cd =>
    match loaderParseCrash cd (r.crash_time.getD "00:00:00") with
    | none => ((db, skipC c), idx + 1)
    | some t =>
      let dres := ensureDatetimeDim db.dtDim [] t
      let lres := ensureLocationDim db.locDim [] (some b)
      let db' := { db with dtDim := dres.1, locDim := lres.1 }
      if cHas db'.factCollisions cid then ((db', dupC c), idx + 1)
      else
        (({ db' with
            factCollisions := db'.factCollisions ++ [mkCFact cid dres.2 lres.2 r] },
          loadC c), idx + 1)

/-- load_collision_data_exact's row loop over a cleaned table, with fresh
per-call counters and the iterrows index starting at 0. -/
def loadCollisions (gen : ℕ → String) (db : DBState) (rows : List CLoadRow) :
    (DBState × Counters) × ℕ :=
  rows.foldl (cStep gen) ((db, ⟨0, 0, 0⟩), 0)

/-! ### Transaction boundaries of a load call

Both loaders commit every batch_size inserted rows (load.py lines 222-225 and
399-402) and issue a final commit; an unhandled error reaching the outer
except triggers conn.rollback(), which undoes only the writes since the most
recent commit.  The model keeps the committed snapshot alongside the working
state; failFinal injects an unhandled error at the end of the call (for
instance a connection loss at the final commit). -/

/-- One row of a load call together with its batch-commit check: the first
component of the accumulator is the committed database snapshot, updated
whenever this row was loaded and total_loaded hit a multiple of the batch
size (load.py lines 222-225 / 399-402). -/
def txStep {sg ro : Type} (dbOf : sg → DBState) (loadedOf : sg → ℕ)
    (step : sg → ro → sg) (batchSize : ℕ) (acc : DBState × sg) (r : ro) :
    DBState × sg :=
  let w := step acc.2 r
  if loadedOf w % batchSize = 0 ∧ ¬ loadedOf w = loadedOf acc.2
  then (dbOf w, w) else (acc.1, w)

/-- Generic transactional wrapper over a loader's row step.  dbOf projects
the database out of the loader state, loadedOf the total_loaded counter.  On
an unhandled error at the end of the call (failFinal), conn.rollback()
restores the committed snapshot; otherwise the final commit publishes the
working state. -/
def loadTx {sg ro : Type} (dbOf : sg → DBState) (loadedOf : sg → ℕ)
    (step : sg → ro → sg) (init : sg) (db0 : DBState) (rows : List ro)
    (batchSize : ℕ) (failFinal : Bool) : DBState × Bool :=
  let res := rows.foldl (txStep dbOf loadedOf step batchSize) (db0, init)
  if failFinal then (res.1, false) else (dbOf res.2, true)

/-- load_weather_data_exact with its transaction boundary. -/
def loadWeatherTx (db : DBState) (rows : List WLoadRow) (batchSize : ℕ)
    (failFinal : Bool) : DBState × Bool :=
  loadTx Prod.fst (fun s => s.2.loaded) wStep (db, ⟨0, 0, 0⟩) db rows batchSize failFinal

/-- load_collision_data_exact with its transaction boundary. -/
def loadCollisionsTx (gen : ℕ → String) (db : DBState) (rows : List CLoadRow)
    (batchSize : ℕ) (failFinal : Bool) : DBState × Bool :=
  loadTx (fun s => s.1.1) (fun s => s.1.2.loaded) (cStep gen) ((db, ⟨0, 0, 0⟩), 0)
    db rows batchSize failFinal

/-! ### Pipeline orchestration (run_pipeline.py, load.py lines 433-460) -/

/-- run_exact_schema_loading (load.py lines 433-460): a failed initial
connection returns False; otherwise both loads are attempted and the function
returns True even when one of them reported failure (the code logs a warning
and continues the pipeline anyway). -/
def runExactSchemaLoading (connectOk weatherOk collisionsOk : Bool) : Bool :=
  if ¬ connectOk then false
  else if weatherOk ∧ collisionsOk then true
  else true

/-- Outcome of the loading phase as run_pipeline observes it: a returned
boolean, an ImportError from importing the load module, or any other
exception. -/
inductive LoadPhaseOutcome where
  | returns (b : Bool)
  | importError
  | raises
deriving DecidableEq

/-- Run summary field recording the database-load status ("Success" when
true, "Partial/Failed" when false; run_pipeline.py line 207). -/
structure RunSummary where
  dbLoadSuccess : Bool
deriving DecidableEq

/-- run_pipeline (run_pipeline.py lines 44-270), at phase granularity:
extraction with a one-shot fallback window (both failing fails the run),
transformation (failure fails the run), then loading — a returned boolean is
recorded, an ImportError is treated as success, any other exception marks the
load failed; in every load case the run continues, writes the summary and
returns True. -/
def runPipeline (extractOk fallbackOk transformOk : Bool)
    (load : LoadPhaseOutcome) : Bool × Option RunSummary :=
  if ¬ (extractOk ∨ fallbackOk) then (false, none)
  else if ¬ transformOk then (false, none)
  else
    let success :=
      match load with
      | .returns b => b
      | .importError => true
      | .raises => false
    (true, some ⟨success⟩)

/-! ### Lemmas about dimension-store get-or-create -/

section DimLemmas

variable {K R : Type} [DecidableEq K] (key : R → K) (mk : K → R)

lemma lookupRows_append_some {l : List (ℕ × R)} {k : K} {i : ℕ} (l' : List (ℕ × R))
    (h : lookupRows key k l = some i) : lookupRows key k (l ++ l') = some i := by
  induction l with
  | nil => simp [lookupRows] at h
  | cons p ps ih =>
    by_cases hpk : key p.2 = k
    · simpa [lookupRows, hpk] using h
    · simp only [lookupRows, hpk, if_false] at h
      simpa [lookupRows, hpk] using ih h

lemma lookupRows_append_none_hit {l : List (ℕ × R)} {k : K} {r : R} (i : ℕ)
    (h : lookupRows key k l = none) (hr : key r = k) :
    lookupRows key k (l ++ [(i, r)]) = some i := by
  induction l with
  | nil => simp [lookupRows, hr]
  | cons p ps ih =>
    by_cases hpk : key p.2 = k
    · simp [lookupRows, hpk] at h
    · simp only [lookupRows, hpk, if_false] at h
      simpa [lookupRows, hpk] using ih h

lemma lookupRows_append_none {l : List (ℕ × R)} {k : K} {r : R} (i : ℕ)
    (h : lookupRows key k l = none) (hr : ¬ key r = k) :
    lookupRows key k (l ++ [(i, r)]) = none := by
  induction l with
  | nil => simp [lookupRows, hr]
  | cons p ps ih =>
    by_cases hpk : key p.2 = k
    · simp [lookupRows, hpk] at h
    · simp only [lookupRows, hpk, if_false] at h
      simpa [lookupRows, hpk] using ih h

lemma countKeyRows_zero_of_none {l : List (ℕ × R)} {k : K}
    (h : lookupRows key k l = none) : countKeyRows key k l = 0 := by
  induction l with
  | nil => simp [countKeyRows]
  | cons p ps ih =>
    by_cases hpk : key p.2 = k
    · simp [lookupRows, hpk] at h
    · simp only [lookupRows, hpk, if_false] at h
      simp [countKeyRows, hpk, ih h]

lemma countKeyRows_one {l : List (ℕ × R)} {k : K} {i : ℕ}
    (hok : dimOk key l = true) (h : lookupRows key k l = some i) :
    countKeyRows key k l = 1 := by
  induction l with
  | nil => simp [lookupRows] at h
  | cons p ps ih =>
    simp only [dimOk, Bool.and_eq_true, Option.isNone_iff_eq_none] at hok
    by_cases hpk : key p.2 = k
    · have hnone : lookupRows key k ps = none := hpk ▸ hok.1
      simp [countKeyRows, hpk, countKeyRows_zero_of_none key hnone]
    · simp only [lookupRows, hpk, if_false] at h
      simp [countKeyRows, hpk, ih hok.2 h]

lemma dimOk_append {l : List (ℕ × R)} {r : R} (i : ℕ)
    (hok : dimOk key l = true) (h : lookupRows key (key r) l = none) :
    dimOk key (l ++ [(i, r)]) = true := by
  induction l with
  | nil => simp [dimOk, lookupRows]
  | cons p ps ih =>
    simp only [dimOk, Bool.and_eq_true, Option.isNone_iff_eq_none] at hok
    by_cases hpk : key p.2 = key r
    · simp [lookupRows, hpk] at h
    · simp only [lookupRows, hpk, if_false] at h
      have hne : ¬ key r = key p.2 := fun he => hpk he.symm
      simp only [List.cons_append, dimOk, Bool.and_eq_true, Option.isNone_iff_eq_none]
      exact ⟨lookupRows_append_none key i hok.1 hne, ih hok.2 h⟩

lemma raceStep_lookup_some {s : DimStore R} {k : K} {i : ℕ} (w : K)
    (h : lookupRows key k s.rows = some i) :
    lookupRows key k (raceStep key mk s w).rows = some i := by
  unfold raceStep
  split
  · exact lookupRows_append_some key _ h
  · exact h

lemma raceStep_dimOk (hmk : ∀ x, key (mk x) = x) {s : DimStore R} (w : K)
    (hok : dimOk key s.rows = true) :
    dimOk key (raceStep key mk s w).rows = true := by
  unfold raceStep
  split
  · next hw => exact dimOk_append key _ hok (by rw [hmk]; exact hw)
  · exact hok

lemma foldRace_lookup_some {k : K} {i : ℕ} (ws : List K) :
    ∀ s : DimStore R, lookupRows key k s.rows = some i →
      lookupRows key k (ws.foldl (raceStep key mk) s).rows = some i := by
  induction ws with
  | nil => intro s h; exact h
  | cons w ws ih =>
    intro s h
    exact ih _ (raceStep_lookup_some key mk w h)

lemma foldRace_dimOk (hmk : ∀ x, key (mk x) = x) (ws : List K) :
    ∀ s : DimStore R, dimOk key s.rows = true →
      dimOk key ((ws.foldl (raceStep key mk) s)).rows = true := by
  induction ws with
  | nil => intro s h; exact h
  | cons w ws ih =>
    intro s h
    exact ih _ (raceStep_dimOk key mk hmk w h)

lemma ensureDim_lookup_self (hmk : ∀ x, key (mk x) = x) (s : DimStore R)
    (race : List K) (k : K) :
    lookupRows key k (ensureDim key mk s race k).1.rows
      = some (ensureDim key mk s race k).2 := by
  unfold ensureDim
  rcases h0 : lookupRows key k s.rows with _ | i
  · rcases h1 : lookupRows key k (race.foldl (raceStep key mk) s).rows with _ | j
    · simpa [h0, h1] using lookupRows_append_none_hit key _ h1 (hmk k)
    · simp [h0, h1]
  · simp [h0]

lemma ensureDim_of_lookup_some {s : DimStore R} {k : K} {i : ℕ} (race : List K)
    (h : lookupRows key k s.rows = some i) :
    ensureDim key mk s race k = (s, i) := by
  unfold ensureDim
  simp [h]

lemma ensureDim_lookup_mono {s : DimStore R} {k' : K} {j : ℕ} (race : List K) (k : K)
    (h : lookupRows key k' s.rows = some j) :
    lookupRows key k' (ensureDim key mk s race k).1.rows = some j := by
  unfold ensureDim
  rcases h0 : lookupRows key k s.rows with _ | i
  · have hf := foldRace_lookup_some key mk race s h
    rcases h1 : lookupRows key k (race.foldl (raceStep key mk) s).rows with _ | j'
    · simpa [h0, h1] using lookupRows_append_some key _ hf
    · simpa [h0, h1] using hf
  · simpa [h0] using h

lemma ensureDim_dimOk (hmk : ∀ x, key (mk x) = x) {s : DimStore R}
    (race : List K) (k : K) (hok : dimOk key s.rows = true) :
    dimOk key (ensureDim key mk s race k).1.rows = true := by
  unfold ensureDim
  rcases h0 : lookupRows key k s.rows with _ | i
  · have hf := foldRace_dimOk key mk hmk race s hok
    rcases h1 : lookupRows key k (race.foldl (raceStep key mk) s).rows with _ | j
    · simpa [h0, h1] using dimOk_append key _ hf (by rw [hmk]; exact h1)
    · simpa [h0, h1] using hf
  · simpa [h0] using hok

lemma resolveOps_lookup_some {k' : K} {j : ℕ} (ops : List (List K × K)) :
    ∀ s : DimStore R, lookupRows key k' s.rows = some j →
      lookupRows key k' (resolveOps key mk s ops).rows = some j := by
  induction ops with
  | nil => intro s h; exact h
  | cons op ops ih =>
    intro s h
    exact ih _ (ensureDim_lookup_mono key mk op.1 op.2 h)

lemma resolveOps_dimOk (hmk : ∀ x, key (mk x) = x) (ops : List (List K × K)) :
    ∀ s : DimStore R, dimOk key s.rows = true →
      dimOk key (resolveOps key mk s ops).rows = true := by
  induction ops with
  | nil => intro s h; exact h
  | cons op ops ih =>
    intro s h
    exact ih _ (ensureDim_dimOk key mk hmk op.1 op.2 h)

/-- Generic get-or-create idempotence: after resolving k (with arbitrary
interleavings), then performing arbitrary further resolutions, resolving k
again returns the same surrogate id, and the table holds exactly one row for
k. -/
lemma ensure_get_or_create (hmk : ∀ x, key (mk x) = x) (s : DimStore R)
    (hok : dimOk key s.rows = true)
    (k : K) (race1 race2 : List K) (ops : List (List K × K)) :
    (ensureDim key mk (resolveOps key mk (ensureDim key mk s race1 k).1 ops) race2 k).2
        = (ensureDim key mk s race1 k).2
    ∧ countKeyRows key k
        (ensureDim key mk (resolveOps key mk (ensureDim key mk s race1 k).1 ops) race2 k).1.rows
        = 1 := by
  have l1 := ensureDim_lookup_self key mk hmk s race1 k
  have l2 := resolveOps_lookup_some key mk ops _ l1
  have heq := ensureDim_of_lookup_some key mk race2 l2
  have hok2 : dimOk key (resolveOps key mk (ensureDim key mk s race1 k).1 ops).rows = true :=
    resolveOps_dimOk key mk hmk ops _ (ensureDim_dimOk key mk hmk race1 k hok)
  rw [heq]
  exact ⟨rfl, countKeyRows_one key hok2 l2⟩

end DimLemmas

/-! ### Lemmas about the collision cleaner's output shape -/

lemma mem_dedupByKeyAux {α β : Type} [DecidableEq β] (key : α → β) :
    ∀ (l : List α) (seen : List β) (x : α), x ∈ dedupByKeyAux key seen l → x ∈ l := by
  intro l
  induction l with
  | nil => intro seen x h; simp [dedupByKeyAux] at h
  | cons y ys ih =>
    intro seen x h
    unfold dedupByKeyAux at h
    split at h
    · exact List.mem_cons_of_mem _ (ih seen x h)
    · rcases List.mem_cons.mp h with he | hm
      · exact he ▸ List.mem_cons_self _ _
      · exact List.mem_cons_of_mem _ (ih _ x hm)

/-- Every row of the cleaned collision output is the derived form of the
stage-1 cleaning of some input row. -/
lemma collisionsTransform_mem {rows : List CRaw} {c : CClean}
    (h : c ∈ collisionsTransform rows) :
    ∃ r ∈ rows, c = deriveClean (cleanStage1 r) := by
  unfold collisionsTransform at h
  rcases List.mem_map.mp h with ⟨i, hi, hc⟩
  have hi4 : i ∈ List.filter (fun i => i.collision_id.isSome && i.crash_datetime.isSome)
      (List.filter (fun i => validBoroughs.contains i.borough)
        (List.map cleanStage1 rows)) :=
    mem_dedupByKeyAux (fun j : CInter => j.collision_id) _ _ _ hi
  have hi2 : i ∈ List.filter (fun i => validBoroughs.contains i.borough)
      (List.map cleanStage1 rows) := List.mem_of_mem_filter hi4
  have hi1 : i ∈ List.map cleanStage1 rows := List.mem_of_mem_filter hi2
  rcases List.mem_map.mp hi1 with ⟨r, hr, hir⟩
  exact ⟨r, hr, by rw [← hc, ← hir]⟩

/-! ### Lemmas about the fact tables -/

lemma wHas_false_count {fw : List WFact} {d lo : ℕ} (h : wHas fw d lo = false) :
    wKeyCount fw d lo = 0 := by
  induction fw with
  | nil => simp [wKeyCount]
  | cons f fs ih =>
    simp only [wHas, List.any_cons, Bool.or_eq_false_iff] at h
    simp only [wKeyCount, List.countP_cons, h.1]
    simpa [wKeyCount, wHas] using ih h.2

lemma wHas_true_count {fw : List WFact} {d lo : ℕ} (h : wHas fw d lo = true) :
    1 ≤ wKeyCount fw d lo := by
  induction fw with
  | nil => simp [wHas] at h
  | cons f fs ih =>
    simp only [wHas, List.any_cons, Bool.or_eq_true] at h
    rcases h with h | h
    · simp [wKeyCount, List.countP_cons, h]
    · have h1 := ih h
      simp only [wKeyCount, List.countP_cons] at h1 ⊢
      omega

lemma wKeyCount_le_one {fw : List WFact} (hok : wFactsOk fw = true) (d lo : ℕ) :
    wKeyCount fw d lo ≤ 1 := by
  induction fw with
  | nil => simp [wKeyCount]
  | cons f fs ih =>
    simp only [wFactsOk, Bool.and_eq_true, Bool.not_eq_true'] at hok
    simp only [wKeyCount, List.countP_cons]
    by_cases hm : (f.datetime_id == d && f.location_id == lo) = true
    · have hm' := hm
      simp only [Bool.and_eq_true, beq_iff_eq] at hm'
      have h0 : wKeyCount fs d lo = 0 := wHas_false_count (hm'.1 ▸ hm'.2 ▸ hok.1)
      simp only [wKeyCount] at h0
      simp [hm, h0]
    · simp only [Bool.not_eq_true] at hm
      have h1 := ih hok.2
      simp only [wKeyCount] at h1
      simp only [hm, Bool.false_eq_true, if_false]
      omega

lemma wHas_append {fw : List WFact} {d lo : ℕ} (f : WFact)
    (h : wHas fw d lo = true) : wHas (fw ++ [f]) d lo = true := by
  simp only [wHas, List.any_append, Bool.or_eq_true]
  exact Or.inl h

lemma wHas_append_self (fw : List WFact) (f : WFact) :
    wHas (fw ++ [f]) f.datetime_id f.location_id = true := by
  simp [wHas, List.any_append]

lemma wFactsOk_append {fw : List WFact} {f : WFact} (hok : wFactsOk fw = true)
    (h : wHas fw f.datetime_id f.location_id = false) :
    wFactsOk (fw ++ [f]) = true := by
  induction fw with
  | nil => simp [wFactsOk, wHas]
  | cons g gs ih =>
    simp only [wFactsOk, Bool.and_eq_true, Bool.not_eq_true'] at hok
    have h'' : ((g.datetime_id == f.datetime_id && g.location_id == f.location_id)
        || wHas gs f.datetime_id f.location_id) = false := by
      simpa [wHas] using h
    have h' : (g.datetime_id == f.datetime_id && g.location_id == f.location_id) = false
        ∧ wHas gs f.datetime_id f.location_id = false := by
      constructor
      · cases hc : (g.datetime_id == f.datetime_id && g.location_id == f.location_id) with
        | false => rfl
        | true => rw [hc] at h''; simp at h''
      · cases hc : wHas gs f.datetime_id f.location_id with
        | false => rfl
        | true => rw [hc] at h''; simp at h''
    simp only [List.cons_append, wFactsOk, Bool.and_eq_true, Bool.not_eq_true']
    refine ⟨?_, ih hok.2 h'.2⟩
    have hgf : (f.datetime_id == g.datetime_id && f.location_id == g.location_id) = false := by
      cases hc : (f.datetime_id == g.datetime_id && f.location_id == g.location_id) with
      | false => rfl
      | true =>
        have hc' := hc
        simp only [Bool.and_eq_true, beq_iff_eq] at hc'
        simp [hc'.1, hc'.2] at h'
    simp only [wHas, List.any_append, List.any_cons, List.any_nil, Bool.or_false]
    have hok1 : gs.any (fun x => x.datetime_id == g.datetime_id
        && x.location_id == g.location_id) = false := by
      simpa [wHas] using hok.1
    simp [hok1, hgf]

lemma cHas_false_count {fc : List CFact} {cid : String} (h : cHas fc cid = false) :
    cKeyCount fc cid = 0 := by
  induction fc with
  | nil => simp [cKeyCount]
  | cons f fs ih =>
    simp only [cHas, List.any_cons, Bool.or_eq_false_iff] at h
    simp only [cKeyCount, List.countP_cons, h.1]
    simpa [cKeyCount, cHas] using ih h.2

lemma cHas_true_count {fc : List CFact} {cid : String} (h : cHas fc cid = true) :
    1 ≤ cKeyCount fc cid := by
  induction fc with
  | nil => simp [cHas] at h
  | cons f fs ih =>
    simp only [cHas, List.any_cons, Bool.or_eq_true] at h
    rcases h with h | h
    · simp [cKeyCount, List.countP_cons, h]
    · have h1 := ih h
      simp only [cKeyCount, List.countP_cons] at h1 ⊢
      omega

lemma cKeyCount_le_one {fc : List CFact} (hok : cFactsOk fc = true) (cid : String) :
    cKeyCount fc cid ≤ 1 := by
  induction fc with
  | nil => simp [cKeyCount]
  | cons f fs ih =>
    simp only [cFactsOk, Bool.and_eq_true, Bool.not_eq_true'] at hok
    simp only [cKeyCount, List.countP_cons]
    by_cases hm : (f.collision_id == cid) = true
    · have hd : f.collision_id = cid := by simpa using hm
      have h0 : cKeyCount fs cid = 0 := cHas_false_count (hd ▸ hok.1)
      simp only [cKeyCount] at h0
      simp [hm, h0]
    · simp only [Bool.not_eq_true] at hm
      have h1 := ih hok.2
      simp only [cKeyCount] at h1
      simp only [hm, Bool.false_eq_true, if_false]
      omega

lemma cHas_append {fc : List CFact} {cid : String} (f : CFact)
    (h : cHas fc cid = true) : cHas (fc ++ [f]) cid = true := by
  simp only [cHas, List.any_append, Bool.or_eq_true]
  exact Or.inl h

lemma cHas_append_self (fc : List CFact) (f : CFact) :
    cHas (fc ++ [f]) f.collision_id = true := by
  simp [cHas, List.any_append]

lemma cFactsOk_append {fc : List CFact} {f : CFact} (hok : cFactsOk fc = true)
    (h : cHas fc f.collision_id = false) :
    cFactsOk (fc ++ [f]) = true := by
  induction fc with
  | nil => simp [cFactsOk, cHas]
  | cons g gs ih =>
    simp only [cFactsOk, Bool.and_eq_true, Bool.not_eq_true'] at hok
    have h'' : ((g.collision_id == f.collision_id) || cHas gs f.collision_id) = false := by
      simpa [cHas] using h
    have h' : (g.collision_id == f.collision_id) = false
        ∧ cHas gs f.collision_id = false := by
      constructor
      · cases hc : (g.collision_id == f.collision_id) with
        | false => rfl
        | true => rw [hc] at h''; simp at h''
      · cases hc : cHas gs f.collision_id with
        | false => rfl
        | true => rw [hc] at h''; simp at h''
    simp only [List.cons_append, cFactsOk, Bool.and_eq_true, Bool.not_eq_true']
    refine ⟨?_, ih hok.2 h'.2⟩
    have hgf : (f.collision_id == g.collision_id) = false := by
      cases hc : (f.collision_id == g.collision_id) with
      | false => rfl
      | true =>
        have hc' : f.collision_id = g.collision_id := by simpa using hc
        simp [hc'] at h'
    simp only [cHas, List.any_append, List.any_cons, List.any_nil, Bool.or_false]
    have hok1 : gs.any (fun x => x.collision_id == g.collision_id) = false := by
      simpa [cHas] using hok.1
    simp [hok1, hgf]

/-! ### Lemmas about the loader row steps -/

lemma ensureDatetimeDim_lookup_self (s : DimStore DTRow) (race : List ℤ) (t : ℤ) :
    lookupRows DTRow.datetime_nyc t (ensureDatetimeDim s race t).1.rows
      = some (ensureDatetimeDim s race t).2 :=
  ensureDim_lookup_self _ _ (fun _ => rfl) s race t

lemma ensureDatetimeDim_hit {s : DimStore DTRow} {t : ℤ} {i : ℕ} (race : List ℤ)
    (h : lookupRows DTRow.datetime_nyc t s.rows = some i) :
    ensureDatetimeDim s race t = (s, i) :=
  ensureDim_of_lookup_some _ _ race h

lemma ensureLocationDim_lookup_self (s : DimStore String) (race : List String)
    (b : Option String) :
    lookupRows id (normBoroughLoad b) (ensureLocationDim s race b).1.rows
      = some (ensureLocationDim s race b).2 :=
  ensureDim_lookup_self id id (fun _ => rfl) s race (normBoroughLoad b)

lemma ensureLocationDim_hit {s : DimStore String} {b : Option String} {i : ℕ}
    (race : List String) (h : lookupRows id (normBoroughLoad b) s.rows = some i) :
    ensureLocationDim s race b = (s, i) :=
  ensureDim_of_lookup_some id id race h

lemma wStep_factsOk {st : DBState × Counters} {r : WLoadRow}
    (hok : wFactsOk st.1.factWeather = true) :
    wFactsOk ((wStep st r).1.factWeather) = true := by
  rcases st with ⟨db, c⟩
  cases hd : r.datetime with
  | none => simpa [wStep, hd] using hok
  | some dt =>
    cases hb : r.borough with
    | none => simpa [wStep, hd, hb] using hok
    | some b =>
      simp only [wStep, hd, hb]
      split
      · exact hok
      · next hw =>
        simp only [Bool.not_eq_true] at hw
        exact wFactsOk_append hok hw

lemma loadWeatherFold_factsOk (rows : List WLoadRow) :
    ∀ st : DBState × Counters, wFactsOk st.1.factWeather = true →
      wFactsOk ((rows.foldl wStep st).1.factWeather) = true := by
  induction rows with
  | nil => intro st h; exact h
  | cons r rs ih => intro st h; exact ih _ (wStep_factsOk h)

lemma cStep_factsOk (gen : ℕ → String) {st : (DBState × Counters) × ℕ} {r : CLoadRow}
    (hok : cFactsOk st.1.1.factCollisions = true) :
    cFactsOk ((cStep gen st r).1.1.factCollisions) = true := by
  rcases st with ⟨⟨db, c⟩, idx⟩
  cases hcd : r.crash_date with
  | none => simpa [cStep, hcd] using hok
  | some cd =>
    cases hp : loaderParseCrash cd (r.crash_time.getD "00:00:00") with
    | none => simpa [cStep, hcd, hp] using hok
    | some t =>
      simp only [cStep, hcd, hp]
      split
      · exact hok
      · next hw =>
        simp only [Bool.not_eq_true] at hw
        exact cFactsOk_append hok hw

lemma loadCollisionsFold_factsOk (gen : ℕ → String) (rows : List CLoadRow) :
    ∀ st : (DBState × Counters) × ℕ, cFactsOk st.1.1.factCollisions = true →
      cFactsOk ((rows.foldl (cStep gen) st).1.1.factCollisions) = true := by
  induction rows with
  | nil => intro st h; exact h
  | cons r rs ih => intro st h; exact ih _ (cStep_factsOk gen h)

/-- After loading a weather row with present datetime and borough, a fact
with the resolved key is present. -/
lemma wStep_key_present (db : DBState) (c : Counters) {r : WLoadRow} {dt : ℤ}
    {b : String} (h1 : r.datetime = some dt) (h2 : r.borough = some b) :
    wHas ((wStep (db, c) r).1.factWeather)
        (ensureDatetimeDim db.dtDim [] dt).2 (ensureLocationDim db.locDim [] (some b)).2
      = true
    ∧ (wStep (db, c) r).1.dtDim = (ensureDatetimeDim db.dtDim [] dt).1
    ∧ (wStep (db, c) r).1.locDim = (ensureLocationDim db.locDim [] (some b)).1 := by
  simp only [wStep, h1, h2]
  split
  · next hw => exact ⟨hw, rfl, rfl⟩
  · next hw =>
    refine ⟨?_, rfl, rfl⟩
    exact wHas_append_self _ _

/-- Loading a weather row with the same datetime and borough a second time
takes the duplicate branch: the database is unchanged and the duplicate
counter is incremented. -/
lemma wStep_second {db : DBState} {c : Counters} {r₁ r₂ : WLoadRow} {dt : ℤ}
    {b : String} (h1 : r₁.datetime = some dt) (h2 : r₁.borough = some b)
    (h3 : r₂.datetime = some dt) (h4 : r₂.borough = some b) :
    wStep (wStep (db, c) r₁) r₂ = ((wStep (db, c) r₁).1, dupC (wStep (db, c) r₁).2) := by
  obtain ⟨hkey, hdt, hlo⟩ := wStep_key_present db c h1 h2
  have hdt2 : ensureDatetimeDim (wStep (db, c) r₁).1.dtDim [] dt
      = ((wStep (db, c) r₁).1.dtDim, (ensureDatetimeDim db.dtDim [] dt).2) := by
    rw [hdt]
    exact ensureDatetimeDim_hit [] (ensureDatetimeDim_lookup_self db.dtDim [] dt)
  have hlo2 : ensureLocationDim (wStep (db, c) r₁).1.locDim [] (some b)
      = ((wStep (db, c) r₁).1.locDim, (ensureLocationDim db.locDim [] (some b)).2) := by
    rw [hlo]
    exact ensureLocationDim_hit [] (ensureLocationDim_lookup_self db.locDim [] (some b))
  rcases hs : wStep (db, c) r₁ with ⟨db1, c1⟩
  rw [hs] at hdt2 hlo2 hkey
  simp only [wStep, h3, h4, hdt2, hlo2]
  split
  · rfl
  · next hw =>
    exfalso
    apply hw
    simpa using hkey

/-- After loading a collision row with a present id and parseable crash
datetime, a fact with that collision id is present. -/
lemma cStep_key_present (gen : ℕ → String) (db : DBState) (c : Counters) (idx : ℕ)
    {r : CLoadRow} {cid : String} {cd : String} {t : ℤ}
    (h1 : r.collision_id = some cid) (h2 : r.crash_date = some cd)
    (h3 : loaderParseCrash cd (r.crash_time.getD "00:00:00") = some t) :
    cHas ((cStep gen ((db, c), idx) r).1.1.factCollisions) cid = true := by
  simp only [cStep, h1, h2, h3]
  split
  · next hw => exact hw
  · exact cHas_append_self _ _

/-- Loading a collision row with the same external collision id a second time
takes the duplicate branch: the fact table is unchanged and the duplicate
counter is incremented (the dimensions may still grow if the second row
carries a new timestamp). -/
lemma cStep_second (gen : ℕ → String) {db : DBState} {c : Counters} {idx : ℕ}
    {r₁ r₂ : CLoadRow} {cid : String} {cd₁ cd₂ : String} {t₁ t₂ : ℤ}
    (ha : r₁.collision_id = some cid) (hb : r₁.crash_date = some cd₁)
    (hc : loaderParseCrash cd₁ (r₁.crash_time.getD "00:00:00") = some t₁)
    (hd : r₂.collision_id = some cid) (he : r₂.crash_date = some cd₂)
    (hf : loaderParseCrash cd₂ (r₂.crash_time.getD "00:00:00") = some t₂) :
    (cStep gen (cStep gen ((db, c), idx) r₁) r₂).1.1.factCollisions
        = (cStep gen ((db, c), idx) r₁).1.1.factCollisions
    ∧ (cStep gen (cStep gen ((db, c), idx) r₁) r₂).1.2
        = dupC (cStep gen ((db, c), idx) r₁).1.2 := by
  have hkey := cStep_key_present gen db c idx ha hb hc
  rcases hs : cStep gen ((db, c), idx) r₁ with ⟨⟨db1, c1⟩, idx1⟩
  rw [hs] at hkey
  simp only [cStep, hd, he, hf]
  split
  · exact ⟨rfl, rfl⟩
  · next hw =>
    exfalso
    apply hw
    simpa using hkey

/-! ### Lemmas about transaction boundaries -/

lemma txFold_committed {sg ro : Type} (dbOf : sg → DBState) (loadedOf : sg → ℕ)
    (step : sg → ro → sg) (b : ℕ)
    (hstep : ∀ s r, loadedOf (step s r) = loadedOf s ∨ loadedOf (step s r) = loadedOf s + 1) :
    ∀ (rows : List ro) (acc : DBState × sg) (db0 : DBState), acc.1 = db0 →
      loadedOf acc.2 + rows.length < b →
      (rows.foldl (txStep dbOf loadedOf step b) acc).1 = db0 := by
  intro rows
  induction rows with
  | nil => intro acc db0 h _; simpa using h
  | cons r rs ih =>
    intro acc db0 hacc hlen
    simp only [List.length_cons] at hlen
    have hcommit : txStep dbOf loadedOf step b acc r = (acc.1, step acc.2 r) := by
      simp only [txStep]
      split
      · next hcond =>
        exfalso
        rcases hstep acc.2 r with he | he
        · exact hcond.2 he
        · have hlt : loadedOf (step acc.2 r) < b := by omega
          have hpos : 0 < loadedOf (step acc.2 r) := by omega
          rw [Nat.mod_eq_of_lt hlt] at hcond
          omega
      · rfl
    rw [List.foldl_cons, hcommit]
    refine ih (acc.1, step acc.2 r) db0 hacc ?_
    rcases hstep acc.2 r with he | he <;> (simp only [he]; omega)

lemma wStep_loaded (st : DBState × Counters) (r : WLoadRow) :
    (wStep st r).2.loaded = st.2.loaded ∨ (wStep st r).2.loaded = st.2.loaded + 1 := by
  rcases st with ⟨db, c⟩
  cases hd : r.datetime with
  | none => exact Or.inl (by simp [wStep, hd, skipC])
  | some dt =>
    cases hb : r.borough with
    | none => exact Or.inl (by simp [wStep, hd, hb, skipC])
    | some b =>
      simp only [wStep, hd, hb]
      split
      · exact Or.inl (by simp [dupC])
      · exact Or.inr (by simp [loadC])

lemma cStep_loaded (gen : ℕ → String) (st : (DBState × Counters) × ℕ) (r : CLoadRow) :
    (cStep gen st r).1.2.loaded = st.1.2.loaded
      ∨ (cStep gen st r).1.2.loaded = st.1.2.loaded + 1 := by
  rcases st with ⟨⟨db, c⟩, idx⟩
  cases hcd : r.crash_date with
  | none => exact Or.inl (by simp [cStep, hcd, skipC])
  | some cd =>
    cases hp : loaderParseCrash cd (r.crash_time.getD "00:00:00") with
    | none => exact Or.inl (by simp [cStep, hcd, hp, skipC])
    | some t =>
      simp only [cStep, hcd, hp]
      split
      · exact Or.inl (by simp [dupC])
      · exact Or.inr (by simp [loadC])

/-! ### Concrete inputs used by witnesses and counterexamples -/

/-- Database state with empty dimension and fact tables. -/
def emptyDB : DBState := ⟨⟨[], 1⟩, ⟨[], 1⟩, [], []⟩

/-- Concrete cleaned weather row at an arbitrary timestamp. -/
def mkTestWRow (t : ℤ) : WLoadRow :=
  { datetime := some t, borough := some "MANHATTAN", temperature_2m := some 10,
    precipitation := some 0, visibility := some 25000, rain := some 0,
    showers := some 0, snowfall := some 0, wind_speed_10m := some 5 }

/-- Spec example input of claim C5: empty-string borough, T-separated crash
date, single-digit crash hour. -/
def c5Row : CRaw :=
  { collision_id := some "4871595", crash_date := some "2024-01-01T00:00:00.000",
    crash_time := some "7:00", borough := some "",
    persons_injured := .num 0, persons_killed := .num 0,
    pedestrians_injured := .num 0, pedestrians_killed := .num 0,
    cyclists_injured := .num 0, cyclists_killed := .num 0,
    motorists_injured := .num 0, motorists_killed := .num 0 }

/-- Raw collision row with one pedestrian injured and nobody else involved:
total_involved is 1 while persons_injured and persons_killed are 0. -/
def c4Raw : CRaw :=
  { collision_id := some "4871595", crash_date := some "2024-01-01T00:00:00.000",
    crash_time := some "7:00", borough := some "BROOKLYN",
    persons_injured := .num 0, persons_killed := .num 0,
    pedestrians_injured := .num 1, pedestrians_killed := .num 0,
    cyclists_injured := .num 0, cyclists_killed := .num 0,
    motorists_injured := .num 0, motorists_killed := .num 0 }

/-- The cleaned form of c4Raw as the loader reads it back. -/
def c4LoadRow : CLoadRow :=
  { collision_id := some "4871595", borough := some "BROOKLYN",
    crash_date := some "2024-01-01T00:00:00.000", crash_time := some "7:00",
    persons_injured := some 0, persons_killed := some 0,
    pedestrians_injured := some 1, pedestrians_killed := some 0,
    cyclists_injured := some 0, cyclists_killed := some 0,
    motorists_injured := some 0, motorists_killed := some 0,
    total_involved := some 1 }

/-- Raw collision row carrying a negative numeric injury count. -/
def c8Row : CRaw :=
  { collision_id := some "9", crash_date := some "2024-01-01",
    crash_time := some "7:00", borough := some "QUEENS",
    persons_injured := .num (-1), persons_killed := .num 0,
    pedestrians_injured := .num 0, pedestrians_killed := .num 0,
    cyclists_injured := .num 0, cyclists_killed := .num 0,
    motorists_injured := .num 0, motorists_killed := .num 0 }

/-- Concrete cleaned collision row for duplicate-load witnesses. -/
def c2CRow : CLoadRow :=
  { collision_id := some "77", borough := some "QUEENS",
    crash_date := some "2024-01-01", crash_time := some "7:00",
    persons_injured := some 0, persons_killed := some 0,
    pedestrians_injured := some 0, pedestrians_killed := some 0,
    cyclists_injured := some 0, cyclists_killed := some 0,
    motorists_injured := some 0, motorists_killed := some 0,
    total_involved := some 0 }

/-! ### Claim theorems -/

/-- Claim C3: for every cleaned weather row, weather_category is exactly one
of CLEAR / RAIN / SNOW / FOG / WIND; it is SNOW whenever snowfall is positive
regardless of every other field; otherwise RAIN when
rain + showers + precipitation is positive, otherwise FOG when visibility is
below 5000, otherwise WIND when wind speed exceeds 30, otherwise CLEAR —
snow dominates rain, rain dominates fog, fog dominates wind. -/
theorem c3_weather_category (r : WMeasures) :
    categorizeWeather r ∈ (["CLEAR", "RAIN", "SNOW", "FOG", "WIND"] : List String)
    ∧ (∀ s, r.snowfall = some s → s > 0 → categorizeWeather r = "SNOW")
    ∧ (¬ r.snowfall.getD 0 > 0 →
        r.rain.getD 0 + r.showers.getD 0 + r.precipitation.getD 0 > 0 →
        categorizeWeather r = "RAIN")
    ∧ (¬ r.snowfall.getD 0 > 0 →
        ¬ r.rain.getD 0 + r.showers.getD 0 + r.precipitation.getD 0 > 0 →
        r.visibility.getD 10000 < 5000 → categorizeWeather r = "FOG")
    ∧ (¬ r.snowfall.getD 0 > 0 →
        ¬ r.rain.getD 0 + r.showers.getD 0 + r.precipitation.getD 0 > 0 →
        ¬ r.visibility.getD 10000 < 5000 → r.wind_speed_10m.getD 0 > 30 →
        categorizeWeather r = "WIND")
    ∧ (¬ r.snowfall.getD 0 > 0 →
        ¬ r.rain.getD 0 + r.showers.getD 0 + r.precipitation.getD 0 > 0 →
        ¬ r.visibility.getD 10000 < 5000 → ¬ r.wind_speed_10m.getD 0 > 30 →
        categorizeWeather r = "CLEAR") := by
  simp only [categorizeWeather]
  refine ⟨?_, ?_, ?_, ?_, ?_, ?_⟩
  · split_ifs <;> simp
  · intro s hs hpos
    rw [if_pos (by simp only [hs, Option.getD_some]; exact hpos)]
  · intro h1 h2
    rw [if_neg h1, if_pos h2]
  · intro h1 h2 h3
    rw [if_neg h1, if_neg h2, if_pos h3]
  · intro h1 h2 h3 h4
    rw [if_neg h1, if_neg h2, if_neg h3, if_pos h4]
  · intro h1 h2 h3 h4
    rw [if_neg h1, if_neg h2, if_neg h3, if_neg h4]

/-- Witness for claim C3 at a concrete row: snowfall 5 forces SNOW. -/
theorem c3_weather_category_witness :
    categorizeWeather ⟨some 5, some 0, some 0, some 0, some 31000, some 7⟩ = "SNOW" :=
  (c3_weather_category ⟨some 5, some 0, some 0, some 0, some 31000, some 7⟩).2.1
    5 rfl (by decide)

/-- Claim C5 counterexample: on the spec's example row (crash_date
2024-01-01T00:00:00.000, crash_time 7:00, borough the empty string) the
cleaned output is empty — the row is filtered out, not retained with borough
UNKNOWN as the claim states. -/
theorem c5_example_counterexample : collisionsTransform [c5Row] = [] := by decide

/-- Claim C5 amended: the crash datetime does reconstruct to
2024-01-01 07:00 (date before the literal T, single-digit hour padded), but
the cleaner's borough normalization maps only missing/NaN boroughs to
UNKNOWN; the empty string stays empty, is not among the six valid borough
values, and the row is therefore filtered out of the cleaned output. -/
theorem c5_example_amended :
    parseCrashDatetime "2024-01-01T00:00:00.000" "7:00"
        = some (daysFromCivil 2024 1 1 * 1440 + 7 * 60)
    ∧ dtYear (daysFromCivil 2024 1 1 * 1440 + 7 * 60) = 2024
    ∧ dtMonth (daysFromCivil 2024 1 1 * 1440 + 7 * 60) = 1
    ∧ dtDayOfMonth (daysFromCivil 2024 1 1 * 1440 + 7 * 60) = 1
    ∧ dtHour (daysFromCivil 2024 1 1 * 1440 + 7 * 60) = 7
    ∧ dtMinute (daysFromCivil 2024 1 1 * 1440 + 7 * 60) = 0
    ∧ normBoroughTransform (some "") = ""
    ∧ validBoroughs.contains "" = false
    ∧ normBoroughTransform none = "UNKNOWN"
    ∧ collisionsTransform [c5Row] = [] := by decide

/-- Claim C7 counterexample: at the timestamp 1970-01-01 20:00 (hour 20) the
weather cleaner's night flag is true, but the datetime dimension row's
is_night column is 0 — the dimension flag is not (hour ≥ 20 or hour < 6). -/
theorem c7_night_counterexample :
    dtHour 1200 = 20
    ∧ (mkWeatherFeatures 1200).is_night = true
    ∧ (mkDatetimeRow 1200).is_night = 0 := by decide

/-- Claim C7 amended: the weather cleaner's is_night flag is true exactly
when the hour is ≥ 20 or < 6, while the datetime dimension's is_night column
is 1 exactly when the hour is ≥ 22 or < 6 (load.py computes night as
10pm - 6am). -/
theorem c7_night_amended (t : ℤ) :
    ((mkWeatherFeatures t).is_night = true ↔ (dtHour t ≥ 20 ∨ dtHour t < 6))
    ∧ ((mkDatetimeRow t).is_night = 1 ↔ (dtHour t ≥ 22 ∨ dtHour t < 6)) := by
  constructor
  · simp [mkWeatherFeatures, ge_iff_le]
  · simp only [mkDatetimeRow]
    split_ifs with h
    · simpa [ge_iff_le] using h
    · simp only [ge_iff_le]
      constructor
      · intro hc; exact absurd hc (by decide)
      · intro hc; exact absurd hc h

/-- Claim C8 counterexample: a raw collision row whose persons_injured cell
is the number -1 survives cleaning with persons_injured = -1 — the count
columns are not clamped to non-negative values. -/
theorem c8_counts_counterexample :
    ∃ c ∈ collisionsTransform [c8Row], c.persons_injured < 0 := by decide

/-- Claim C8 amended: after cleaning, each of the 8 injury/fatality count
columns holds an integer: a missing or non-numeric value becomes 0, a column
absent from the input is created and zero-filled, and a numeric value is
truncated to an integer with its sign preserved (negative inputs stay
negative); every count of every cleaned row is the coercion of the
corresponding raw cell of some input row. -/
theorem c8_counts_amended :
    (∀ n, coerceCountColumn none n = List.replicate n 0)
    ∧ coerceCount Cell.null = 0
    ∧ (∀ s, parseNumericStr s = none → coerceCount (Cell.str s) = 0)
    ∧ (∀ q, coerceCount (Cell.num q) = truncToInt q)
    ∧ (∀ rows c, c ∈ collisionsTransform rows →
        ∃ r ∈ rows,
          c.persons_injured = coerceCount r.persons_injured
          ∧ c.persons_killed = coerceCount r.persons_killed
          ∧ c.pedestrians_injured = coerceCount r.pedestrians_injured
          ∧ c.pedestrians_killed = coerceCount r.pedestrians_killed
          ∧ c.cyclists_injured = coerceCount r.cyclists_injured
          ∧ c.cyclists_killed = coerceCount r.cyclists_killed
          ∧ c.motorists_injured = coerceCount r.motorists_injured
          ∧ c.motorists_killed = coerceCount r.motorists_killed) := by
  refine ⟨fun n => rfl, rfl, ?_, fun q => rfl, ?_⟩
  · intro s h
    simp [coerceCount, h]
  · intro rows c hc
    rcases collisionsTransform_mem hc with ⟨r, hr, he⟩
    exact ⟨r, hr, by
      subst he
      exact ⟨rfl, rfl, rfl, rfl, rfl, rfl, rfl, rfl⟩⟩

/-- Witness for the amended claim C8: a non-numeric cell coerces to 0. -/
theorem c8_counts_amended_witness : coerceCount (Cell.str "abc") = 0 :=
  c8_counts_amended.2.2.1 "abc" (by decide)

/-- Claim C10: every datetime dimension row stores a UTC timestamp equal to
the local NYC timestamp minus exactly 5 hours (300 minutes), and this shift
is the same for every timestamp of the year — a fixed offset with no
daylight-saving adjustment. -/
theorem c10_fixed_utc_shift (t₁ t₂ : ℤ) :
    (mkDatetimeRow t₁).datetime_utc = t₁ - 5 * 60
    ∧ t₁ - (mkDatetimeRow t₁).datetime_utc = t₂ - (mkDatetimeRow t₂).datetime_utc := by
  constructor
  · rfl
  · simp only [mkDatetimeRow]
    omega

/-- Claim C1: dimension resolution is idempotent.  For every local timestamp
and every borough value, resolving the same value twice against the same
store — sequentially, interleaved with an arbitrary sequence of other
resolutions, with arbitrary concurrent resolutions racing either attempt
(including the case in which the insert hits the uniqueness violation
because the row already exists, which the code converts into a
re-lookup-and-return rather than a raised error; in the model the
uniqueness-violation branch always finds the row, so resolution is a total
function and never raises) — returns the same surrogate id both times and
leaves exactly one dimension row for that value. -/
theorem c1_dimension_resolution_idempotent
    (sdt : DimStore DTRow) (sloc : DimStore String)
    (hdt : dimOk DTRow.datetime_nyc sdt.rows = true)
    (hloc : dimOk id sloc.rows = true)
    (t : ℤ) (b : Option String) (race1 race2 : List ℤ) (race3 race4 : List String)
    (opsDt : List (List ℤ × ℤ)) (opsLoc : List (List String × String)) :
    ((ensureDatetimeDim
        (resolveOps DTRow.datetime_nyc mkDatetimeRow (ensureDatetimeDim sdt race1 t).1 opsDt)
        race2 t).2
      = (ensureDatetimeDim sdt race1 t).2
    ∧ countKeyRows DTRow.datetime_nyc t
        (ensureDatetimeDim
          (resolveOps DTRow.datetime_nyc mkDatetimeRow (ensureDatetimeDim sdt race1 t).1 opsDt)
          race2 t).1.rows
      = 1)
    ∧ ((ensureLocationDim
        (resolveOps id id (ensureLocationDim sloc race3 b).1 opsLoc) race4 b).2
      = (ensureLocationDim sloc race3 b).2
    ∧ countKeyRows id (normBoroughLoad b)
        (ensureLocationDim
          (resolveOps id id (ensureLocationDim sloc race3 b).1 opsLoc) race4 b).1.rows
      = 1) := by
  constructor
  · simpa [ensureDatetimeDim] using
      ensure_get_or_create DTRow.datetime_nyc mkDatetimeRow (fun _ => rfl) sdt hdt
        t race1 race2 opsDt
  · simpa [ensureLocationDim] using
      ensure_get_or_create id id (fun _ => rfl) sloc hloc
        (normBoroughLoad b) race3 race4 opsLoc

/-- Witness for claim C1 at the empty store, the timestamp 0 and the borough
BRONX, with empty race and interleaving lists. -/
theorem c1_dimension_resolution_idempotent_witness :
    ((ensureDatetimeDim
        (resolveOps DTRow.datetime_nyc mkDatetimeRow
          (ensureDatetimeDim ⟨[], 1⟩ [] 0).1 []) [] 0).2
      = (ensureDatetimeDim ⟨[], 1⟩ [] 0).2
    ∧ countKeyRows DTRow.datetime_nyc 0
        (ensureDatetimeDim
          (resolveOps DTRow.datetime_nyc mkDatetimeRow
            (ensureDatetimeDim ⟨[], 1⟩ [] 0).1 []) [] 0).1.rows
      = 1)
    ∧ ((ensureLocationDim
        (resolveOps id id (ensureLocationDim ⟨[], 1⟩ [] (some "BRONX")).1 [])
        [] (some "BRONX")).2
      = (ensureLocationDim ⟨[], 1⟩ [] (some "BRONX")).2
    ∧ countKeyRows id (normBoroughLoad (some "BRONX"))
        (ensureLocationDim
          (resolveOps id id (ensureLocationDim ⟨[], 1⟩ [] (some "BRONX")).1 [])
          [] (some "BRONX")).1.rows
      = 1) :=
  c1_dimension_resolution_idempotent ⟨[], 1⟩ ⟨[], 1⟩ (by decide) (by decide)
    0 (some "BRONX") [] [] [] [] [] []

/-- Claim C2: fact loading is at-most-once per natural key.  Every fact-table
state reachable through the loaders from a state satisfying the uniqueness
invariant satisfies it again, so there is at most one weather fact per
(datetime_id, location_id) and at most one collision fact per external
collision id; and loading a weather row with the same borough and timestamp,
or a collision row with the same collision id, a second time inserts no new
fact and increments the duplicate counter by exactly 1. -/
theorem c2_fact_loading_at_most_once :
    (∀ db rows, wFactsOk db.factWeather = true →
      wFactsOk ((loadWeather db rows).1.factWeather) = true
      ∧ ∀ d lo, wKeyCount ((loadWeather db rows).1.factWeather) d lo ≤ 1)
    ∧ (∀ gen db rows, cFactsOk db.factCollisions = true →
      cFactsOk ((loadCollisions gen db rows).1.1.factCollisions) = true
      ∧ ∀ cid, cKeyCount ((loadCollisions gen db rows).1.1.factCollisions) cid ≤ 1)
    ∧ (∀ db c r₁ r₂ dt b, r₁.datetime = some dt → r₁.borough = some b →
        r₂.datetime = some dt → r₂.borough = some b →
        wStep (wStep (db, c) r₁) r₂ = ((wStep (db, c) r₁).1, dupC (wStep (db, c) r₁).2))
    ∧ (∀ gen db c idx r₁ r₂ cid cd₁ cd₂ t₁ t₂,
        r₁.collision_id = some cid → r₁.crash_date = some cd₁ →
        loaderParseCrash cd₁ (r₁.crash_time.getD "00:00:00") = some t₁ →
        r₂.collision_id = some cid → r₂.crash_date = some cd₂ →
        loaderParseCrash cd₂ (r₂.crash_time.getD "00:00:00") = some t₂ →
        (cStep gen (cStep gen ((db, c), idx) r₁) r₂).1.1.factCollisions
            = (cStep gen ((db, c), idx) r₁).1.1.factCollisions
        ∧ (cStep gen (cStep gen ((db, c), idx) r₁) r₂).1.2
            = dupC (cStep gen ((db, c), idx) r₁).1.2) := by
  refine ⟨?_, ?_, ?_, ?_⟩
  · intro db rows hok
    have h := loadWeatherFold_factsOk rows (db, ⟨0, 0, 0⟩) hok
    exact ⟨h, wKeyCount_le_one h⟩
  · intro gen db rows hok
    have h := loadCollisionsFold_factsOk gen rows ((db, ⟨0, 0, 0⟩), 0) hok
    exact ⟨h, cKeyCount_le_one h⟩
  · intro db c r₁ r₂ dt b h1 h2 h3 h4
    exact wStep_second h1 h2 h3 h4
  · intro gen db c idx r₁ r₂ cid cd₁ cd₂ t₁ t₂ ha hb hc hd he hf
    exact cStep_second gen ha hb hc hd he hf

/-- Witness for claim C2 at the empty database with concrete rows: loading
the same weather row (timestamp 0, borough MANHATTAN) or the same collision
row (id 77) twice takes the duplicate path the second time. -/
theorem c2_fact_loading_at_most_once_witness :
    wFactsOk ((loadWeather emptyDB [mkTestWRow 0, mkTestWRow 0]).1.factWeather) = true
    ∧ cFactsOk ((loadCollisions (fun _ => "GEN") emptyDB
        [c2CRow, c2CRow]).1.1.factCollisions) = true
    ∧ wStep (wStep (emptyDB, ⟨0, 0, 0⟩) (mkTestWRow 0)) (mkTestWRow 0)
        = ((wStep (emptyDB, ⟨0, 0, 0⟩) (mkTestWRow 0)).1,
           dupC (wStep (emptyDB, ⟨0, 0, 0⟩) (mkTestWRow 0)).2)
    ∧ (cStep (fun _ => "GEN") (cStep (fun _ => "GEN") ((emptyDB, ⟨0, 0, 0⟩), 0) c2CRow)
          c2CRow).1.1.factCollisions
        = (cStep (fun _ => "GEN") ((emptyDB, ⟨0, 0, 0⟩), 0) c2CRow).1.1.factCollisions :=
  ⟨(c2_fact_loading_at_most_once.1 emptyDB [mkTestWRow 0, mkTestWRow 0] (by decide)).1,
   (c2_fact_loading_at_most_once.2.1 (fun _ => "GEN") emptyDB [c2CRow, c2CRow]
      (by decide)).1,
   c2_fact_loading_at_most_once.2.2.1 emptyDB ⟨0, 0, 0⟩ (mkTestWRow 0) (mkTestWRow 0)
     0 "MANHATTAN" rfl rfl rfl rfl,
   (c2_fact_loading_at_most_once.2.2.2 (fun _ => "GEN") emptyDB ⟨0, 0, 0⟩ 0
      c2CRow c2CRow "77" "2024-01-01" "2024-01-01"
      (daysFromCivil 2024 1 1 * 1440 + 7 * 60) (daysFromCivil 2024 1 1 * 1440 + 7 * 60)
      rfl rfl (by decide) rfl rfl (by decide)).1⟩

/-- Claim C4 counterexample: for a collision record with one pedestrian
injured (total_involved = 1, persons_injured = persons_killed = 0) the
cleaned record's severity_level is MINOR, but the fact row the loader writes
for the same record carries severity_level NONE — the loader recomputes
severity without a MINOR branch instead of carrying the cleaned value. -/
theorem c4_severity_counterexample :
    (collisionsTransform [c4Raw]).map (fun c => c.severity_level) = ["MINOR"]
    ∧ ((loadCollisions (fun _ => "GEN") emptyDB [c4LoadRow]).1.1.factCollisions).map
        (fun f => f.severity_level) = ["NONE"] := by decide

/-- Claim C4 amended: the cleaned record's severity_level follows the
five-level priority rule (killed > 0 FATAL; injured ≥ 3 SEVERE; injured > 0
MODERATE; total_involved > 0 MINOR; else NONE), but the fact row's
severity_level is recomputed by the loader from persons_injured and
persons_killed alone with no MINOR level: killed > 0 FATAL; injured ≥ 3
SEVERE; injured > 0 MODERATE; otherwise NONE, even when total_involved is
positive. -/
theorem c4_severity_amended :
    (∀ rows c, c ∈ collisionsTransform rows →
      c.severity_level = determineSeverity c.persons_injured c.persons_killed
        c.total_involved)
    ∧ (∀ i k t : ℤ,
        (k > 0 → determineSeverity i k t = "FATAL")
        ∧ (¬ k > 0 → i ≥ 3 → determineSeverity i k t = "SEVERE")
        ∧ (¬ k > 0 → ¬ i ≥ 3 → i > 0 → determineSeverity i k t = "MODERATE")
        ∧ (¬ k > 0 → ¬ i ≥ 3 → ¬ i > 0 → t > 0 → determineSeverity i k t = "MINOR")
        ∧ (¬ k > 0 → ¬ i ≥ 3 → ¬ i > 0 → ¬ t > 0 → determineSeverity i k t = "NONE"))
    ∧ (∀ i k : ℤ,
        (k > 0 → loaderSeverity i k = "FATAL")
        ∧ (¬ k > 0 → i ≥ 3 → loaderSeverity i k = "SEVERE")
        ∧ (¬ k > 0 → ¬ i ≥ 3 → i > 0 → loaderSeverity i k = "MODERATE")
        ∧ (¬ k > 0 → ¬ i ≥ 3 → ¬ i > 0 → loaderSeverity i k = "NONE")
        ∧ loaderSeverity i k ≠ "MINOR")
    ∧ (∀ gen st r f, f ∈ (cStep gen st r).1.1.factCollisions →
        f ∈ st.1.1.factCollisions
        ∨ f.severity_level = loaderSeverity f.persons_injured f.persons_killed) := by
  refine ⟨?_, ?_, ?_, ?_⟩
  · intro rows c hc
    rcases collisionsTransform_mem hc with ⟨r, hr, he⟩
    subst he
    rfl
  · intro i k t
    refine ⟨?_, ?_, ?_, ?_, ?_⟩
    · intro h1; simp only [determineSeverity]; rw [if_pos h1]
    · intro h1 h2; simp only [determineSeverity]; rw [if_neg h1, if_pos h2]
    · intro h1 h2 h3; simp only [determineSeverity]
      rw [if_neg h1, if_neg h2, if_pos h3]
    · intro h1 h2 h3 h4; simp only [determineSeverity]
      rw [if_neg h1, if_neg h2, if_neg h3, if_pos h4]
    · intro h1 h2 h3 h4; simp only [determineSeverity]
      rw [if_neg h1, if_neg h2, if_neg h3, if_neg h4]
  · intro i k
    refine ⟨?_, ?_, ?_, ?_, ?_⟩
    · intro h1; simp only [loaderSeverity]; rw [if_pos h1]
    · intro h1 h2; simp only [loaderSeverity]; rw [if_neg h1, if_pos h2]
    · intro h1 h2 h3; simp only [loaderSeverity]
      rw [if_neg h1, if_neg h2, if_pos h3]
    · intro h1 h2 h3; simp only [loaderSeverity]
      rw [if_neg h1, if_neg h2, if_neg h3]
    · simp only [loaderSeverity]
      split_ifs <;> decide
  · intro gen st r f hf
    rcases st with ⟨⟨db, c⟩, idx⟩
    cases hcd : r.crash_date with
    | none => exact Or.inl (by simpa [cStep, hcd] using hf)
    | some cd =>
      cases hp : loaderParseCrash cd (r.crash_time.getD "00:00:00") with
      | none => exact Or.inl (by simpa [cStep, hcd, hp] using hf)
      | some t =>
        simp only [cStep, hcd, hp] at hf
        split at hf
        · exact Or.inl hf
        · rcases List.mem_append.mp hf with h | h
          · exact Or.inl h
          · right
            simp only [List.mem_singleton] at h
            subst h
            rfl

/-- Witness for the amended claim C4: one pedestrian injured gives a MINOR
cleaned record and a NONE fact severity. -/
theorem c4_severity_amended_witness :
    determineSeverity 0 0 1 = "MINOR" ∧ loaderSeverity 0 0 = "NONE" :=
  ⟨(c4_severity_amended.2.1 0 0 1).2.2.2.1 (by decide) (by decide) (by decide) (by decide),
   (c4_severity_amended.2.2.1 0 0).2.2.2.1 (by decide) (by decide) (by decide)⟩

/-- Claim C6 counterexample: loading three weather rows with batch size 2 and
an unhandled error at the final commit reports failure, but the fact table is
not restored to its pre-call state — the first batch of 2 rows was already
committed and survives the rollback, so the call is not atomic. -/
theorem c6_rollback_counterexample :
    (loadWeatherTx emptyDB [mkTestWRow 0, mkTestWRow 60, mkTestWRow 120] 2 true).2 = false
    ∧ ¬ (loadWeatherTx emptyDB [mkTestWRow 0, mkTestWRow 60, mkTestWRow 120]
          2 true).1.factWeather = emptyDB.factWeather := by decide

/-- Claim C6 amended: an unhandled error mid-load makes the call report
failure and rolls back only the writes since the most recent batch commit;
batches already committed persist.  In particular, the whole call is rolled
back to its pre-call state exactly when no batch commit had occurred, for
instance whenever fewer rows than one batch were processed. -/
theorem c6_rollback_amended :
    (∀ db rows batchSize, (loadWeatherTx db rows batchSize true).2 = false)
    ∧ (∀ gen db rows batchSize, (loadCollisionsTx gen db rows batchSize true).2 = false)
    ∧ (∀ db rows batchSize, rows.length < batchSize →
        loadWeatherTx db rows batchSize true = (db, false))
    ∧ (∀ gen db rows batchSize, rows.length < batchSize →
        loadCollisionsTx gen db rows batchSize true = (db, false)) := by
  refine ⟨?_, ?_, ?_, ?_⟩
  · intro db rows batchSize
    simp [loadWeatherTx, loadTx]
  · intro gen db rows batchSize
    simp [loadCollisionsTx, loadTx]
  · intro db rows batchSize hlen
    have h := txFold_committed Prod.fst (fun s => s.2.loaded) wStep batchSize
      wStep_loaded rows (db, (db, ⟨0, 0, 0⟩)) db rfl (by simpa using hlen)
    simp only [loadWeatherTx, loadTx, if_true]
    exact Prod.ext h rfl
  · intro gen db rows batchSize hlen
    have h := txFold_committed (fun s => s.1.1) (fun s => s.1.2.loaded) (cStep gen)
      batchSize (cStep_loaded gen) rows (db, ((db, ⟨0, 0, 0⟩), 0)) db rfl
      (by simpa using hlen)
    simp only [loadCollisionsTx, loadTx, if_true]
    exact Prod.ext h rfl

/-- Witness for the amended claim C6: one row with batch size 100 — below one
batch, the failed call rolls back to the pre-call state. -/
theorem c6_rollback_amended_witness :
    loadWeatherTx emptyDB [mkTestWRow 0] 100 true = (emptyDB, false) :=
  c6_rollback_amended.2.2.1 emptyDB [mkTestWRow 0] 100 (by decide)

/-- Claim C9 counterexample: with a successful initial connection but a
failed weather load, run_exact_schema_loading still returns True, so the run
summary records the database load as a success — the load failure is not
reported in the run summary as a failed load, contrary to the claim. -/
theorem c9_load_failure_counterexample :
    runExactSchemaLoading true false true = true
    ∧ runPipeline true true true (.returns (runExactSchemaLoading true false true))
        = (true, some ⟨true⟩) := by decide

/-- Claim C9 amended: if extraction (directly or through the fallback window)
and transformation succeed, the pipeline run always returns overall success,
whatever the load phase does; the run summary reports the load as failed when
the load phase raises, and run_exact_schema_loading's return value — hence
the recorded load status — equals the initial connectivity check alone:
per-table load failures after a successful connection are recorded as
success, as is a missing loader module. -/
theorem c9_load_failure_amended :
    (∀ extractOk fallbackOk load, (extractOk || fallbackOk) = true →
      (runPipeline extractOk fallbackOk true load).1 = true)
    ∧ (∀ c w k, runExactSchemaLoading c w k = c)
    ∧ (∀ extractOk fallbackOk c w k, (extractOk || fallbackOk) = true →
        runPipeline extractOk fallbackOk true (.returns (runExactSchemaLoading c w k))
          = (true, some ⟨c⟩))
    ∧ (∀ extractOk fallbackOk, (extractOk || fallbackOk) = true →
        runPipeline extractOk fallbackOk true .raises = (true, some ⟨false⟩))
    ∧ (∀ extractOk fallbackOk, (extractOk || fallbackOk) = true →
        runPipeline extractOk fallbackOk true .importError = (true, some ⟨true⟩))
    ∧ (∀ load, runPipeline false false true load = (false, none))
    ∧ (∀ extractOk fallbackOk load, runPipeline extractOk fallbackOk false load
        = (false, none)) := by
  have hload : ∀ c w k, runExactSchemaLoading c w k = c := by
    intro c w k
    cases c <;> cases w <;> cases k <;> rfl
  refine ⟨?_, hload, ?_, ?_, ?_, ?_, ?_⟩
  · intro extractOk fallbackOk load h
    cases extractOk <;> cases fallbackOk <;> simp_all [runPipeline]
  · intro extractOk fallbackOk c w k h
    rw [hload]
    cases extractOk <;> cases fallbackOk <;> cases c <;> simp_all [runPipeline]
  · intro extractOk fallbackOk h
    cases extractOk <;> cases fallbackOk <;> simp_all [runPipeline]
  · intro extractOk fallbackOk h
    cases extractOk <;> cases fallbackOk <;> simp_all [runPipeline]
  · intro load
    simp [runPipeline]
  · intro extractOk fallbackOk load
    cases extractOk <;> cases fallbackOk <;> simp [runPipeline]

/-- Witness for the amended claim C9: successful extraction, failed weather
load after a successful connection — the run returns success and the summary
records a successful load. -/
theorem c9_load_failure_amended_witness :
    runPipeline true false true (.returns (runExactSchemaLoading true false false))
      = (true, some ⟨true⟩) :=
  c9_load_failure_amended.2.2.1 true false true false false (by decide)

end EtlModel
